import Mathlib

/-!
Shallow embedding of the cut-detection and export engine of the
premiere-auto-edit repository.

Times, durations and confidences are JavaScript numbers in the source; they
are modelled as rationals (`ℚ`), so all arithmetic is exact.  Strings keep
the source's literal contents.  JavaScript objects whose fields may be
absent (`undefined`) are modelled with `Option`; the `isMarker` field,
absent on most candidates and tested for truthiness, is modelled as a
`Bool` that defaults to `false`.
-/

namespace AutoEdit

/-- The `type` string tag of a cut candidate
(`'silence' | 'filler' | 'scene_change' | 'speech_rate' | 'pause' | 'sentiment'`). -/
inductive CandidateType
  | silence
  | filler
  | sceneChange
  | speechRate
  | pause
  | sentiment
deriving DecidableEq

/-- A cut candidate `{start, end, duration, type, reason, confidence, isMarker}`.
The source's `end` field is named `stop` (`end` is a Lean keyword).  The
per-type `metadata` object attached by the advanced analyzers is never read
by any function modelled here and is omitted. -/
structure CutCandidate where
  start : ℚ
  stop : ℚ
  duration : ℚ
  type : CandidateType
  reason : String
  confidence : ℚ
  isMarker : Bool := false
deriving DecidableEq

/-- A keep clip `{start, end, duration}`; `end` is named `stop`. -/
structure KeepClip where
  start : ℚ
  stop : ℚ
  duration : ℚ
deriving DecidableEq

/-- A silence interval from the video analysis (`{start, end, duration}`). -/
structure Silence where
  start : ℚ
  stop : ℚ
  duration : ℚ
deriving DecidableEq

/-- A filler-word span from the speech analysis (`{word, start, end}`). -/
structure FillerWord where
  word : String
  start : ℚ
  stop : ℚ
deriving DecidableEq

/-- A word with timestamps inside a transcription segment (`{word, start, end}`). -/
structure SpeechWord where
  word : String
  start : ℚ
  stop : ℚ
deriving DecidableEq

/-- A transcription segment (`{text, start, end, words}`). -/
structure SpeechSegment where
  text : String
  start : ℚ
  stop : ℚ
  words : List SpeechWord
deriving DecidableEq

/-- The result of the video analysis consumed by the detector:
`{duration, silences, sceneChanges}`. -/
structure VideoAnalysis where
  duration : ℚ
  silences : List Silence
  sceneChanges : List ℚ
deriving DecidableEq

/-- The result of the speech analysis consumed by the detector:
`{fillerWords, segments}` (other fields are never read by the core). -/
structure SpeechAnalysis where
  fillerWords : List FillerWord
  segments : List SpeechSegment
deriving DecidableEq

/-- `config.autoCut` (the fields read by the detector). -/
structure AutoCutConfig where
  silenceMinDuration : ℚ
  cutBuffer : ℚ
  minClipDuration : ℚ
  useSceneChangesForCuts : Bool
  sceneChangeBuffer : ℚ
deriving DecidableEq

/-- `config.advancedDetection.speechRateAnalysis`. -/
structure SpeechRateConfig where
  enabled : Bool
  minWPM : ℚ
  maxWPM : ℚ
deriving DecidableEq

/-- `config.advancedDetection.pauseDetection`. -/
structure PauseConfig where
  enabled : Bool
  minDuration : ℚ
  maxDuration : ℚ
  bufferBefore : ℚ
  bufferAfter : ℚ
deriving DecidableEq

/-- `config.advancedDetection.sentimentAnalysis`. -/
structure SentimentConfig where
  enabled : Bool
deriving DecidableEq

/-- `config.advancedDetection`; each sub-object may be absent
(the source reads them with optional chaining `?.`). -/
structure AdvancedDetectionConfig where
  speechRateAnalysis : Option SpeechRateConfig := none
  pauseDetection : Option PauseConfig := none
  sentimentAnalysis : Option SentimentConfig := none
deriving DecidableEq

/-- The configuration slice consumed by `AutoCutDetector` and `SpeechAnalyzer`. -/
structure Config where
  autoCut : AutoCutConfig
  advancedDetection : Option AdvancedDetectionConfig := none
deriving DecidableEq

/-- `learnedStyle.cutPattern`; numeric fields may be absent and are tested
for truthiness in the source, hence `Option`. -/
structure CutPattern where
  avgCutInterval : Option ℚ := none
  sceneChangeCorrelation : Option ℚ := none
deriving DecidableEq

/-- A learned style profile; only `cutPattern` is read by `applyCutStyle`. -/
structure LearnedStyle where
  cutPattern : Option CutPattern := none
deriving DecidableEq

/-- Ordering of candidates used by the source's
`candidates.sort((a, b) => a.start - b.start)`. -/
def candLE (a b : CutCandidate) : Prop := a.start ≤ b.start

instance : DecidableRel candLE := fun a b => inferInstanceAs (Decidable (a.start ≤ b.start))

instance : IsTotal CutCandidate candLE := ⟨fun a b => le_total a.start b.start⟩

instance : IsTrans CutCandidate candLE := ⟨fun _ _ _ h h' => le_trans h h'⟩

/-- The sort at the end of `generateCutCandidates`.  JavaScript's
`Array.prototype.sort` is stable; `List.insertionSort` is a stable sort. -/
def sortByStart (l : List CutCandidate) : List CutCandidate := l.insertionSort candLE

/-- `AutoCutDetector.calculateSilenceConfidence`. -/
def calculateSilenceConfidence (duration : ℚ) : ℚ :=
  if duration < 0.5 then 0.3
  else if duration < 1 then 0.6
  else if duration < 2 then 0.8
  else 0.95

/-- `AutoCutDetector.generateCutCandidates`: silence, filler and scene-change
candidates, sorted by start.  The scene-change buffer default `|| 0.05`
fires on the falsy value `0` as in the source. -/
def generateCutCandidates (cfg : Config) (videoAnalysis : VideoAnalysis)
    (speechAnalysis : SpeechAnalysis) : List CutCandidate :=
  let silenceCands : List CutCandidate :=
    (videoAnalysis.silences.filter
        (fun s => decide (cfg.autoCut.silenceMinDuration ≤ s.duration))).map fun s =>
      { start := s.start, stop := s.stop, duration := s.duration,
        type := .silence, reason := "無音",
        confidence := calculateSilenceConfidence s.duration }
  let fillerCands : List CutCandidate :=
    speechAnalysis.fillerWords.map fun f =>
      { start := max 0 (f.start - cfg.autoCut.cutBuffer),
        stop := f.stop + cfg.autoCut.cutBuffer,
        duration := f.stop - f.start,
        type := .filler, reason := "フィラーワード: " ++ f.word,
        confidence := 0.7 }
  let useAscut := cfg.autoCut.useSceneChangesForCuts
  let buffer : ℚ := if cfg.autoCut.sceneChangeBuffer = 0 then 0.05
    else cfg.autoCut.sceneChangeBuffer
  let sceneCands : List CutCandidate :=
    videoAnalysis.sceneChanges.map fun sceneTime =>
      { start := if useAscut then max 0 (sceneTime - buffer) else sceneTime,
        stop := if useAscut then sceneTime + buffer else sceneTime,
        duration := if useAscut then buffer * 2 else 0,
        type := .sceneChange, reason := "シーン変化",
        confidence := 0.6,
        isMarker := !useAscut }
  sortByStart (silenceCands ++ fillerCands ++ sceneCands)

/-- The sweep loop of `AutoCutDetector.mergeCutCandidates`: `current` is the
accumulator, the list argument the remaining candidates. -/
def mergeLoop (mergeThreshold : ℚ) (current : CutCandidate) :
    List CutCandidate → List CutCandidate
  | [] => [current]
  | next :: rest =>
    if current.isMarker then
      current :: mergeLoop mergeThreshold next rest
    else if next.start - current.stop ≤ mergeThreshold then
      mergeLoop mergeThreshold
        { current with
          stop := max current.stop next.stop,
          duration := max current.stop next.stop - current.start,
          confidence := max current.confidence next.confidence,
          reason := current.reason ++ " + " ++ next.reason } rest
    else
      current :: mergeLoop mergeThreshold next rest

/-- `AutoCutDetector.mergeCutCandidates(candidates, mergeThreshold = 0.3)`. -/
def mergeCutCandidates (candidates : List CutCandidate) (mergeThreshold : ℚ) :
    List CutCandidate :=
  match candidates with
  | [] => []
  | c :: rest => mergeLoop mergeThreshold c rest

/-- `AutoCutDetector.filterCutCandidates(candidates, minConfidence = 0.5)`. -/
def filterCutCandidates (candidates : List CutCandidate) (minConfidence : ℚ) :
    List CutCandidate :=
  candidates.filter fun candidate =>
    candidate.isMarker || decide (minConfidence ≤ candidate.confidence)

/-- The cursor walk of `AutoCutDetector.generateKeepClips` over the actual
(non-marker) cuts, including the trailing clip after the loop. -/
def keepLoop (minClipDuration totalDuration : ℚ) :
    ℚ → List CutCandidate → List KeepClip
  | currentTime, [] =>
    if currentTime < totalDuration then
      if minClipDuration ≤ totalDuration - currentTime then
        [{ start := currentTime, stop := totalDuration,
           duration := totalDuration - currentTime }]
      else []
    else []
  | currentTime, cut :: rest =>
    (if currentTime < cut.start then
      if minClipDuration ≤ cut.start - currentTime then
        [{ start := currentTime, stop := cut.start,
           duration := cut.start - currentTime }]
      else []
    else []) ++ keepLoop minClipDuration totalDuration cut.stop rest

/-- `AutoCutDetector.generateKeepClips(cutCandidates, totalDuration)`. -/
def generateKeepClips (cfg : Config) (cutCandidates : List CutCandidate)
    (totalDuration : ℚ) : List KeepClip :=
  let actualCuts := cutCandidates.filter (fun c => !c.isMarker)
  if actualCuts.isEmpty then
    [{ start := 0, stop := totalDuration, duration := totalDuration }]
  else
    keepLoop cfg.autoCut.minClipDuration totalDuration 0 actualCuts

/-- The complement spans visited but not emitted by `keepLoop` because they
are shorter than `minClipDuration`. -/
def dropLoop (minClipDuration totalDuration : ℚ) :
    ℚ → List CutCandidate → List KeepClip
  | currentTime, [] =>
    if currentTime < totalDuration then
      if minClipDuration ≤ totalDuration - currentTime then []
      else
        [{ start := currentTime, stop := totalDuration,
           duration := totalDuration - currentTime }]
    else []
  | currentTime, cut :: rest =>
    (if currentTime < cut.start then
      if minClipDuration ≤ cut.start - currentTime then []
      else
        [{ start := currentTime, stop := cut.start,
           duration := cut.start - currentTime }]
    else []) ++ dropLoop minClipDuration totalDuration cut.stop rest

/-- Modelled from the spec: "droppedFragment = any complement span shorter
than `minClipDuration`" — the complement fragments that the keep-clip walk
of `generateKeepClips` silently drops.  The source does not collect them;
this mirrors the walk of `generateKeepClips` exactly, emitting the spans of
the branches in which no keep clip is emitted (when there are no actual
cuts, `generateKeepClips` keeps the whole timeline, so nothing is dropped). -/
def droppedFragments (cfg : Config) (cutCandidates : List CutCandidate)
    (totalDuration : ℚ) : List KeepClip :=
  let actualCuts := cutCandidates.filter (fun c => !c.isMarker)
  if actualCuts.isEmpty then []
  else dropLoop cfg.autoCut.minClipDuration totalDuration 0 actualCuts

/-- `AutoCutDetector.applyCutStyle(cutCandidates, learnedStyle)`.  The
`pattern.avgCutInterval` branch of the source has an empty body (comments
only) and is a no-op.  The truthiness test
`pattern.sceneChangeCorrelation && candidate.type === 'scene_change'` is
false when the correlation is absent or `0`. -/
def applyCutStyle (cutCandidates : List CutCandidate)
    (learnedStyle : Option LearnedStyle) : List CutCandidate :=
  match learnedStyle with
  | none => cutCandidates
  | some style =>
    match style.cutPattern with
    | none => cutCandidates
    | some pattern =>
      cutCandidates.map fun candidate =>
        match pattern.sceneChangeCorrelation with
        | none => candidate
        | some corr =>
          if corr ≠ 0 ∧ candidate.type = .sceneChange then
            { candidate with confidence := candidate.confidence * corr }
          else candidate

/-- JavaScript `Math.round`: `Math.round(x) = Math.floor(x + 0.5)` for every
finite number, including negatives. -/
def jsRound (q : ℚ) : ℤ := ⌊q + 1 / 2⌋

/-- `String.prototype.padStart(targetLength, c)`. -/
def padStart (s : String) (targetLength : ℕ) (c : Char) : String :=
  String.mk (List.replicate (targetLength - s.length) c) ++ s

/-- JavaScript `Number.prototype.toFixed(2)` on a rational: round the
magnitude to two decimals (half away from zero) and format with exactly two
fraction digits.  Binary floating-point representation noise of the source
is not modelled. -/
def toFixed2 (q : ℚ) : String :=
  let n : ℕ := (⌊|q| * 100 + 1 / 2⌋).toNat
  let sign := if q < 0 then "-" else ""
  sign ++ toString (n / 100) ++ "." ++ padStart (toString (n % 100)) 2 '0'

/-- The `config.advancedDetection?.speechRateAnalysis` lookup. -/
def speechRateConfig (cfg : Config) : Option SpeechRateConfig :=
  match cfg.advancedDetection with
  | none => none
  | some adv => adv.speechRateAnalysis

/-- The `config.advancedDetection.pauseDetection` lookup. -/
def pauseConfig (cfg : Config) : Option PauseConfig :=
  match cfg.advancedDetection with
  | none => none
  | some adv => adv.pauseDetection

/-- The `config.advancedDetection.sentimentAnalysis` lookup. -/
def sentimentConfig (cfg : Config) : Option SentimentConfig :=
  match cfg.advancedDetection with
  | none => none
  | some adv => adv.sentimentAnalysis

/-- `SpeechAnalyzer.calculateSpeechRateConfidence`. -/
def calculateSpeechRateConfidence (wpm minWPM maxWPM : ℚ) : ℚ :=
  let normalRange := maxWPM - minWPM
  if wpm < minWPM then
    min 0.9 (0.5 + (minWPM - wpm) / normalRange * 0.4)
  else
    min 0.9 (0.5 + (wpm - maxWPM) / normalRange * 0.4)

/-- `SpeechAnalyzer.analyzeSpeechRate`.  Segments without words are skipped.
Division is exact on `ℚ`; a zero-length segment (division by zero in the
source yields `Infinity`) is outside the modelled domain. -/
def analyzeSpeechRate (cfg : Config) (speechAnalysis : SpeechAnalysis) :
    List CutCandidate :=
  match speechRateConfig cfg with
  | none => []
  | some sr =>
    if !sr.enabled then []
    else
      speechAnalysis.segments.filterMap fun segment =>
        if segment.words.isEmpty then none
        else
          let duration := segment.stop - segment.start
          let wordsPerMinute := (segment.words.length : ℚ) / duration * 60
          if wordsPerMinute < sr.minWPM ∨ sr.maxWPM < wordsPerMinute then
            some { start := segment.start, stop := segment.stop,
                   duration := duration, type := .speechRate,
                   reason := "話速度異常: " ++ toString (jsRound wordsPerMinute) ++ " WPM",
                   confidence :=
                     calculateSpeechRateConfidence wordsPerMinute sr.minWPM sr.maxWPM }
          else none

/-- `SpeechAnalyzer.calculatePauseConfidence`. -/
def calculatePauseConfidence (duration minDuration maxDuration : ℚ) : ℚ :=
  min 0.9 (0.5 + (duration - minDuration) / (maxDuration - minDuration) * 0.4)

/-- `SpeechAnalyzer.detectPauses`: gaps between consecutive words (across
all segments, in order) within the configured `[minDuration, maxDuration]`
band become pause candidates. -/
def detectPauses (cfg : Config) (speechAnalysis : SpeechAnalysis) :
    List CutCandidate :=
  match pauseConfig cfg with
  | none => []
  | some pc =>
    if !pc.enabled then []
    else
      let allWords := (speechAnalysis.segments.map (·.words)).flatten
      (allWords.zip allWords.tail).filterMap fun pair =>
        let prevWord := pair.1
        let currentWord := pair.2
        let gap := currentWord.start - prevWord.stop
        if pc.minDuration ≤ gap ∧ gap ≤ pc.maxDuration then
          some { start := max 0 (prevWord.stop - pc.bufferBefore),
                 stop := currentWord.start + pc.bufferAfter,
                 duration := gap + pc.bufferBefore + pc.bufferAfter,
                 type := .pause,
                 reason := "不自然な間: " ++ toFixed2 gap ++ "秒",
                 confidence := calculatePauseConfidence gap pc.minDuration pc.maxDuration }
        else none

/-- Non-overlapping occurrence count of `pat` in `s`, scanning left to
right: JavaScript `(s.match(new RegExp(pat, 'g')) || []).length` for a
pattern without metacharacters. -/
def countOccurrences (pat : List Char) : List Char → ℕ
  | [] => 0
  | c :: rest =>
    if h : pat ≠ [] ∧ pat.isPrefixOf (c :: rest) then
      1 + countOccurrences pat (List.drop pat.length (c :: rest))
    else
      countOccurrences pat rest
termination_by s => s.length
decreasing_by
  · simp only [List.length_drop, List.length_cons]
    have : 0 < pat.length := List.length_pos.mpr h.1
    omega
  · simp [Nat.lt_succ_self]

/-- The filler-word list hardcoded in `SpeechAnalyzer.estimateSentiment`. -/
def sentimentFillerWords : List String := ["えー", "あー", "えっと", "まあ", "そうですね"]

/-- The record returned by `SpeechAnalyzer.estimateSentiment` (the `type`
string is derivable from `monotone` and omitted). -/
structure SentimentEstimate where
  monotone : Bool
  score : ℕ
  confidence : ℚ
deriving DecidableEq

/-- `SpeechAnalyzer.estimateSentiment`.  `text.length` counts UTF-16 code
units in the source and code points here; they agree on the Basic
Multilingual Plane, which covers all inputs considered. -/
def estimateSentiment (text : String) : SentimentEstimate :=
  let exclamations := (text.data.filter (fun c => c == '！' || c == '!')).length
  let questions := (text.data.filter (fun c => c == '？' || c == '?')).length
  let fillerCount := (sentimentFillerWords.map (fun f => countOccurrences f.data text.data)).sum
  let sentenceLength := text.length
  let emotionalScore := exclamations + questions
  let fillerRatio : ℚ := (fillerCount : ℚ) / max 1 ((sentenceLength : ℚ) / 10)
  let monotone := emotionalScore == 0 && decide ((0.3 : ℚ) < fillerRatio)
  { monotone := monotone,
    score := emotionalScore,
    confidence := if monotone then min 0.7 fillerRatio else 0.3 }

/-- `SpeechAnalyzer.analyzeSentiment`. -/
def analyzeSentiment (cfg : Config) (speechAnalysis : SpeechAnalysis) :
    List CutCandidate :=
  match sentimentConfig cfg with
  | none => []
  | some sc =>
    if !sc.enabled then []
    else
      speechAnalysis.segments.filterMap fun segment =>
        let sentiment := estimateSentiment segment.text
        if sentiment.monotone then
          some { start := segment.start, stop := segment.stop,
                 duration := segment.stop - segment.start,
                 type := .sentiment, reason := "単調な話し方",
                 confidence := sentiment.confidence }
        else none

/-- `SpeechAnalyzer.analyzeAll`, restricted to the `candidates` field of its
result (the `stats` field only repeats the three list lengths). -/
def analyzeAll (cfg : Config) (speechAnalysis : SpeechAnalysis) :
    List CutCandidate :=
  analyzeSpeechRate cfg speechAnalysis ++ detectPauses cfg speechAnalysis ++
    analyzeSentiment cfg speechAnalysis

/-- `AutoCutDetector.isAdvancedDetectionEnabled`. -/
def isAdvancedDetectionEnabled (cfg : Config) : Bool :=
  match cfg.advancedDetection with
  | none => false
  | some adv =>
    (match adv.speechRateAnalysis with | some s => s.enabled | none => false) ||
    (match adv.pauseDetection with | some p => p.enabled | none => false) ||
    (match adv.sentimentAnalysis with | some s => s.enabled | none => false)

/-- The numeric content of `AutoCutDetector.generateStatistics` (the source
formats these values as fixed-point / percentage strings via `toFixed(2)`;
a zero `totalDuration`, division by zero in the source, is outside the
modelled domain). -/
structure Statistics where
  totalDuration : ℚ
  totalCuts : ℕ
  totalKeepClips : ℕ
  totalCutDuration : ℚ
  totalKeepDuration : ℚ
  reductionRate : ℚ
  finalDuration : ℚ
  silenceCuts : ℕ
  fillerCuts : ℕ
deriving DecidableEq

/-- `AutoCutDetector.generateStatistics`. -/
def generateStatistics (cutCandidates : List CutCandidate)
    (keepClips : List KeepClip) (totalDuration : ℚ) : Statistics :=
  let actualCuts := cutCandidates.filter (fun c => !c.isMarker)
  let totalCutDuration := (actualCuts.map (·.duration)).sum
  let totalKeepDuration := (keepClips.map (·.duration)).sum
  { totalDuration := totalDuration,
    totalCuts := actualCuts.length,
    totalKeepClips := keepClips.length,
    totalCutDuration := totalCutDuration,
    totalKeepDuration := totalKeepDuration,
    reductionRate := totalCutDuration / totalDuration * 100,
    finalDuration := totalKeepDuration,
    silenceCuts := (actualCuts.filter (fun c => decide (c.type = .silence))).length,
    fillerCuts := (actualCuts.filter (fun c => decide (c.type = .filler))).length }

/-- The intermediate lists of `AutoCutDetector.detectCuts`, one per stage
boundary. -/
structure DetectCutsStages where
  rawCandidates : List CutCandidate
  allCandidates : List CutCandidate
  mergedCandidates : List CutCandidate
  filteredCandidates : List CutCandidate
  styledCandidates : List CutCandidate
  keepClips : List KeepClip
  stats : Statistics
deriving DecidableEq

/-- The value returned by `AutoCutDetector.detectCuts`. -/
structure DetectCutsResult where
  cutCandidates : List CutCandidate
  keepClips : List KeepClip
  stats : Statistics
deriving DecidableEq

/-- `AutoCutDetector.detectCuts`, with every stage boundary exposed.  The
merge and filter are called with their default thresholds (`0.3`, `0.5`);
`allCandidates` is `[...rawCandidates, ...advancedCandidates]`. -/
def detectCutsStages (cfg : Config) (videoAnalysis : VideoAnalysis)
    (speechAnalysis : SpeechAnalysis) (learnedStyle : Option LearnedStyle) :
    DetectCutsStages :=
  let rawCandidates := generateCutCandidates cfg videoAnalysis speechAnalysis
  let advancedCandidates :=
    if isAdvancedDetectionEnabled cfg then analyzeAll cfg speechAnalysis else []
  let allCandidates := rawCandidates ++ advancedCandidates
  let mergedCandidates := mergeCutCandidates allCandidates 0.3
  let filteredCandidates := filterCutCandidates mergedCandidates 0.5
  let styledCandidates :=
    match learnedStyle with
    | some style => applyCutStyle filteredCandidates (some style)
    | none => filteredCandidates
  let keepClips := generateKeepClips cfg styledCandidates videoAnalysis.duration
  let stats := generateStatistics styledCandidates keepClips videoAnalysis.duration
  { rawCandidates := rawCandidates, allCandidates := allCandidates,
    mergedCandidates := mergedCandidates, filteredCandidates := filteredCandidates,
    styledCandidates := styledCandidates, keepClips := keepClips, stats := stats }

/-- `AutoCutDetector.detectCuts`. -/
def detectCuts (cfg : Config) (videoAnalysis : VideoAnalysis)
    (speechAnalysis : SpeechAnalysis) (learnedStyle : Option LearnedStyle) :
    DetectCutsResult :=
  let stages := detectCutsStages cfg videoAnalysis speechAnalysis learnedStyle
  { cutCandidates := stages.styledCandidates, keepClips := stages.keepClips,
    stats := stages.stats }

/-- Truncation toward zero, JavaScript's implicit rounding in the `%`
operator. -/
def ratTrunc (q : ℚ) : ℤ := if q < 0 then ⌈q⌉ else ⌊q⌋

/-- JavaScript's `%` operator on numbers: `a - b * trunc(a / b)` (the result
takes the sign of the dividend). -/
def jsMod (a b : ℚ) : ℚ := a - b * (ratTrunc (a / b) : ℚ)

/-- `PremiereIntegration.framesToTimecode(frames, frameRate)`: `HH:MM:SS:FF`
with zero-padded two-digit fields.  `frames` is always an integer
(`Math.floor` result) at every call site. -/
def framesToTimecode (frames : ℤ) (frameRate : ℚ) : String :=
  let hours := ⌊(frames : ℚ) / (frameRate * 3600)⌋
  let minutes := ⌊jsMod (frames : ℚ) (frameRate * 3600) / (frameRate * 60)⌋
  let seconds := ⌊jsMod (frames : ℚ) (frameRate * 60) / frameRate⌋
  let remainingFrames := jsMod (frames : ℚ) frameRate
  padStart (toString hours) 2 '0' ++ ":" ++ padStart (toString minutes) 2 '0' ++ ":" ++
    padStart (toString seconds) 2 '0' ++ ":" ++ padStart (toString ⌊remainingFrames⌋) 2 '0'

/-- The five timecode/number fields of one EDL row produced by the loop body
of `PremiereIntegration.generateEDL`. -/
structure EDLEntry where
  editNumber : String
  sourceIn : String
  sourceOut : String
  recordIn : String
  recordOut : String
deriving DecidableEq

/-- The rows of `PremiereIntegration.generateEDL`, indexed from `0` as in
the source loop: `recordIn` uses `Math.floor(i * clip.duration * frameRate)`
and `recordOut` uses `Math.floor((i + 1) * clip.duration * frameRate)`. -/
def edlEntries (frameRate : ℚ) (keepClips : List KeepClip) : List EDLEntry :=
  keepClips.enum.map fun pair =>
    let i := pair.1
    let clip := pair.2
    { editNumber := padStart (toString (i + 1)) 3 '0',
      sourceIn := framesToTimecode ⌊clip.start * frameRate⌋ frameRate,
      sourceOut := framesToTimecode ⌊clip.stop * frameRate⌋ frameRate,
      recordIn := framesToTimecode ⌊(i : ℚ) * clip.duration * frameRate⌋ frameRate,
      recordOut := framesToTimecode ⌊((i : ℚ) + 1) * clip.duration * frameRate⌋ frameRate }

/-- One formatted EDL row
(`${editNumber}  ${videoName}       V     C        ${sourceIn} ${sourceOut} ${recordIn} ${recordOut}\n`). -/
def edlRowString (videoName : String) (e : EDLEntry) : String :=
  e.editNumber ++ "  " ++ videoName ++ "       V     C        " ++ e.sourceIn ++ " " ++
    e.sourceOut ++ " " ++ e.recordIn ++ " " ++ e.recordOut ++ "\n"

/-- `PremiereIntegration.generateEDL(keepClips, videoName)`. -/
def generateEDL (frameRate : ℚ) (keepClips : List KeepClip) (videoName : String) :
    String :=
  "TITLE: Auto Edited Sequence\nFCM: NON-DROP FRAME\n\n" ++
    String.join ((edlEntries frameRate keepClips).map (edlRowString videoName))

/-- The character of a base64 sextet value (standard alphabet, as used by
Node's `Buffer.toString('base64')`). -/
def base64SextetChar (s : ℕ) : Char :=
  if s < 26 then Char.ofNat (65 + s)
  else if s < 52 then Char.ofNat (97 + (s - 26))
  else if s < 62 then Char.ofNat (48 + (s - 52))
  else if s = 62 then '+'
  else '/'

/-- The sextet value of a base64 character (inverse of `base64SextetChar`;
`0` on characters outside the alphabet). -/
def base64CharSextet (c : Char) : ℕ :=
  let n := c.toNat
  if 65 ≤ n ∧ n ≤ 90 then n - 65
  else if 97 ≤ n ∧ n ≤ 122 then n - 97 + 26
  else if 48 ≤ n ∧ n ≤ 57 then n - 48 + 52
  else if n = 43 then 62
  else if n = 47 then 63
  else 0

/-- Standard base64 encoding of a byte list (no line breaks, `=` padding):
Node's `Buffer.toString('base64')`. -/
def base64Encode : List ℕ → List Char
  | [] => []
  | [b1] =>
    [base64SextetChar (b1 / 4), base64SextetChar (b1 % 4 * 16), '=', '=']
  | [b1, b2] =>
    [base64SextetChar (b1 / 4), base64SextetChar (b1 % 4 * 16 + b2 / 16),
     base64SextetChar (b2 % 16 * 4), '=']
  | b1 :: b2 :: b3 :: rest =>
    base64SextetChar (b1 / 4) :: base64SextetChar (b1 % 4 * 16 + b2 / 16) ::
      base64SextetChar (b2 % 16 * 4 + b3 / 64) :: base64SextetChar (b3 % 64) ::
      base64Encode rest

/-- Standard base64 decoding of a canonical base64 character list: Node's
`Buffer.from(s, 'base64')`. -/
def base64Decode : List Char → List ℕ
  | c1 :: c2 :: c3 :: c4 :: rest =>
    if c3 = '=' then
      [base64CharSextet c1 * 4 + base64CharSextet c2 / 16]
    else if c4 = '=' then
      [base64CharSextet c1 * 4 + base64CharSextet c2 / 16,
       base64CharSextet c2 % 16 * 16 + base64CharSextet c3 / 4]
    else
      (base64CharSextet c1 * 4 + base64CharSextet c2 / 16) ::
        (base64CharSextet c2 % 16 * 16 + base64CharSextet c3 / 4) ::
        (base64CharSextet c3 % 4 * 64 + base64CharSextet c4) ::
        base64Decode rest
  | _ => []

/-- The fixed header constant of `PremiereIntegration.generateCaptionBase64`
(240 bytes of font/style metadata, base64-encoded). -/
def headerBase64 : String :=
  "kAIAAAAAAABEMyIRDAAAAAAABgAKAAQABgAAAGQAAAAAAF4AJAAUABAAAAAAACAAHAAAAAAAAAAAAAAAAAAAAAAAAAAAAAAAAAAAAAAAAAAAAAAAAAAAAAAAAAAAAAAAAAAAAAAAAAAAAAAAAAAAAAAADwAAAAgAAAAAABsABwBeAAAAAAAAARwAAAAAAAABJAAAADwAAAAAAAAAAgAAAAIAAAAQ/v//FP7//xj+//8c/v//AQAAAAQAAAANAAAAWXVHb3RoaWMtQm9sZAAAAAEAAAAMAAAACAAMAAQACAAIAAAACAAAAGwBAAAsAQAA"

/-- The fixed footer constant of `PremiereIntegration.generateCaptionBase64`
(126 bytes of effect parameters, base64-encoded). -/
def footerBase64 : String :=
  "NgAgAAAAHAAAAAAAGAAXABAAAAAAAAAAAAAAAAAAAAAAAAAAAAAAAAAAAAAAAAwAAAAIAAQANgAAAAIAAAAYAAAAHAAAAAAAEEAAAAABIAAAAAAAkELg////BAAGAAQAAAAAAAoACAAFAAYABwAKAAAAAAAAAAQABAAEAAAA"

/-- `Buffer.from(headerBase64, 'base64')` as a byte list. -/
def headerBytes : List ℕ := base64Decode headerBase64.data

/-- `Buffer.from(footerBase64, 'base64')` as a byte list. -/
def footerBytes : List ℕ := base64Decode footerBase64.data

/-- The `TEXT_SECTION_SIZE` constant (302). -/
def TEXT_SECTION_SIZE : ℕ := 302

/-- The 302-byte text section: `Buffer.alloc(302)` (all zeros) into which
`textBuffer.copy(textSection, 0)` copies at most 302 bytes of the UTF-8
text (`Buffer.copy` stops at the end of the target, so longer text is
truncated without error). -/
def textSection (textUtf8 : List ℕ) : List ℕ :=
  textUtf8.take TEXT_SECTION_SIZE ++
    List.replicate (TEXT_SECTION_SIZE - textUtf8.length) 0

/-- The 668-byte buffer
`Buffer.concat([headerBuffer, textSection, footerBuffer])` built by
`generateCaptionBase64`; the argument is the UTF-8 encoding of the caption
text as a byte list (`Buffer.from(text, 'utf-8')`). -/
def captionBuffer (textUtf8 : List ℕ) : List ℕ :=
  headerBytes ++ textSection textUtf8 ++ footerBytes

/-- `PremiereIntegration.generateCaptionBase64(text)`: the base64 string of
the final buffer. -/
def generateCaptionBase64 (textUtf8 : List ℕ) : String :=
  String.mk (base64Encode (captionBuffer textUtf8))

/-- Invariant between consecutive outputs of the merge sweep: the left one
is a marker, or the gap from its end to the right one's start exceeds the
threshold. -/
def mergedSeparated (θ : ℚ) (x y : CutCandidate) : Prop :=
  x.isMarker = true ∨ x.stop + θ < y.start

instance (θ : ℚ) : DecidableRel (mergedSeparated θ) := fun _ _ =>
  inferInstanceAs (Decidable (_ ∨ _))

/-- Sum of the `duration` fields of a keep-clip list. -/
def sumDurations (l : List KeepClip) : ℚ := (l.map (·.duration)).sum

/-- Sum of the span lengths `end − start` of a candidate list. -/
def spanSum (l : List CutCandidate) : ℚ := (l.map (fun c => c.stop - c.start)).sum

/-- A configuration with the repository's default `autoCut` settings and no
advanced detection. -/
def fillerScenarioCfg : Config :=
  { autoCut := { silenceMinDuration := 0.5, cutBuffer := 0.1, minClipDuration := 1,
                 useSceneChangesForCuts := true, sceneChangeBuffer := 0.05 } }

/-- A 10-second video with no silences and no scene changes. -/
def fillerScenarioVideo : VideoAnalysis :=
  { duration := 10, silences := [], sceneChanges := [] }

/-- A speech analysis with a single filler word on `[2, 3]`. -/
def fillerScenarioSpeech : SpeechAnalysis :=
  { fillerWords := [{ word := "えー", start := 2, stop := 3 }], segments := [] }

/-- The default configuration with scene changes kept as markers and pause
detection (an advanced-detection feature) enabled with its default
thresholds. -/
def pauseScenarioCfg : Config :=
  { autoCut := { silenceMinDuration := 0.5, cutBuffer := 0.1, minClipDuration := 1,
                 useSceneChangesForCuts := false, sceneChangeBuffer := 0.05 },
    advancedDetection := some
      { pauseDetection := some
          { enabled := true, minDuration := 1, maxDuration := 3,
            bufferBefore := 0.2, bufferAfter := 0.2 } } }

/-- A 20-second video with a silence on `[5, 10]` and a scene change at 12. -/
def pauseScenarioVideo : VideoAnalysis :=
  { duration := 20, silences := [{ start := 5, stop := 10, duration := 5 }],
    sceneChanges := [12] }

/-- A speech analysis with two words separated by a one-second pause, so that
pause detection emits a candidate on `[2, 17/5]`. -/
def pauseScenarioSpeech : SpeechAnalysis :=
  { fillerWords := [],
    segments := [{ text := "", start := 2, stop := 4,
                   words := [{ word := "a", start := 2, stop := 2.2 },
                             { word := "b", start := 3.2, stop := 3.5 }] }] }

/-- A non-marker silence candidate spanning `[0, 5]`. -/
def cexSilence : CutCandidate :=
  { start := 0, stop := 5, duration := 5, type := .silence, reason := "無音",
    confidence := 0.95 }

/-- A scene-change marker at time 2, inside the span of `cexSilence`. -/
def cexMarker : CutCandidate :=
  { start := 2, stop := 2, duration := 0, type := .sceneChange, reason := "シーン変化",
    confidence := 0.6, isMarker := true }

/-- Two already-merged silence candidates more than the default threshold
apart. -/
def idemWitnessList : List CutCandidate :=
  [{ start := 0, stop := 1, duration := 1, type := .silence, reason := "無音",
     confidence := 0.8 },
   { start := 2, stop := 3, duration := 1, type := .silence, reason := "無音",
     confidence := 0.6 }]

/-- The actual cuts of the spec's Scenario A: `[(10,15), (50,52)]` within a
100-second timeline. -/
def coverageWitnessCuts : List CutCandidate :=
  [{ start := 10, stop := 15, duration := 5, type := .silence, reason := "無音",
     confidence := 0.95 },
   { start := 50, stop := 52, duration := 2, type := .silence, reason := "無音",
     confidence := 0.8 }]

/-- Two keep clips of different lengths (1 s and 2 s). -/
def edlScenarioClips : List KeepClip :=
  [{ start := 0, stop := 1, duration := 1 }, { start := 5, stop := 7, duration := 2 }]

/-- A silence candidate ending at 1. -/
def boundaryLeft : CutCandidate :=
  { start := 0, stop := 1, duration := 1, type := .silence, reason := "無音",
    confidence := 0.8 }

/-- A silence candidate starting exactly `mergeThreshold = 0.3` after
`boundaryLeft` ends. -/
def boundaryRight : CutCandidate :=
  { start := 1.3, stop := 2, duration := 0.7, type := .silence, reason := "無音",
    confidence := 0.6 }

/-- A silence candidate starting `0.4 > mergeThreshold` after `boundaryLeft`
ends. -/
def boundaryFar : CutCandidate :=
  { start := 1.4, stop := 2, duration := 0.6, type := .silence, reason := "無音",
    confidence := 0.6 }

/-- A scene-change-typed candidate with confidence 0.6. -/
def styledScene : CutCandidate :=
  { start := 1, stop := 1.1, duration := 0.1, type := .sceneChange,
    reason := "シーン変化", confidence := 0.6 }

/-- A silence-typed candidate with confidence 0.8. -/
def styledSilence : CutCandidate :=
  { start := 3, stop := 4, duration := 1, type := .silence, reason := "無音",
    confidence := 0.8 }

/-- A learned style whose scene-change correlation factor is 2. -/
def overCorrelatedStyle : LearnedStyle :=
  { cutPattern := some { sceneChangeCorrelation := some 2 } }

/-- A learned style whose scene-change correlation factor is 0 (falsy in the
source). -/
def zeroCorrelatedStyle : LearnedStyle :=
  { cutPattern := some { sceneChangeCorrelation := some 0 } }

/-- The UTF-8 bytes of the 10-byte ASCII caption text "HelloWorld". -/
def captionWitnessText : List ℕ := [72, 101, 108, 108, 111, 87, 111, 114, 108, 100]

/-- A 303-byte caption text (303 copies of the byte 65, i.e. "A"). -/
def oversizeWitnessText : List ℕ := List.replicate 303 65

lemma mergeLoop_ne_nil (θ : ℚ) (cur : CutCandidate) (l : List CutCandidate) :
    mergeLoop θ cur l ≠ [] := by
  induction l generalizing cur with
  | nil => simp [mergeLoop]
  | cons next rest ih =>
    simp only [mergeLoop]
    split_ifs with h1 h2
    · simp
    · exact ih _
    · simp

lemma mergeLoop_headStart (θ : ℚ) (cur : CutCandidate) (l : List CutCandidate) :
    ∀ x ∈ (mergeLoop θ cur l).head?, x.start = cur.start := by
  induction l generalizing cur with
  | nil => simp [mergeLoop]
  | cons next rest ih =>
    simp only [mergeLoop]
    split_ifs with h1 h2
    · simp
    · exact ih _
    · simp

lemma mergeLoop_chain' (θ : ℚ) (cur : CutCandidate) (l : List CutCandidate) :
    List.Chain' (mergedSeparated θ) (mergeLoop θ cur l) := by
  induction l generalizing cur with
  | nil => simp [mergeLoop]
  | cons next rest ih =>
    simp only [mergeLoop]
    split_ifs with h1 h2
    · rw [List.chain'_cons']
      exact ⟨fun y _ => Or.inl h1, ih next⟩
    · exact ih _
    · rw [List.chain'_cons']
      refine ⟨fun y hy => Or.inr ?_, ih next⟩
      rw [mergeLoop_headStart θ next rest y hy]
      linarith [not_le.mp h2]

lemma mergeLoop_fixpoint (θ : ℚ) (l : List CutCandidate) (cur : CutCandidate)
    (h : List.Chain' (mergedSeparated θ) (cur :: l)) : mergeLoop θ cur l = cur :: l := by
  induction l generalizing cur with
  | nil => simp [mergeLoop]
  | cons next rest ih =>
    rw [List.chain'_cons] at h
    obtain ⟨hcn, hrest⟩ := h
    simp only [mergeLoop]
    rcases hcn with hm | hgap
    · rw [if_pos hm, ih next hrest]
    · by_cases hm : cur.isMarker
      · rw [if_pos hm, ih next hrest]
      · rw [if_neg hm, if_neg (by simp only [not_le]; linarith), ih next hrest]

/-- C9: applying `mergeCutCandidates` to its own output (on a list sorted by
start, with any threshold) returns that output unchanged. -/
theorem mergeCutCandidates_idempotent (l : List CutCandidate) (θ : ℚ)
    (hsorted : List.Chain' candLE l) :
    mergeCutCandidates (mergeCutCandidates l θ) θ = mergeCutCandidates l θ := by
  cases l with
  | nil => rfl
  | cons c rest =>
    have hchain := mergeLoop_chain' θ c rest
    simp only [mergeCutCandidates]
    obtain ⟨m, t, hmt⟩ : ∃ m t, mergeLoop θ c rest = m :: t := by
      cases hml : mergeLoop θ c rest with
      | nil => exact absurd hml (mergeLoop_ne_nil θ c rest)
      | cons m t => exact ⟨m, t, rfl⟩
    rw [hmt]
    exact mergeLoop_fixpoint θ t m (hmt ▸ hchain)

/-- C9 witness: idempotence at a concrete two-candidate sorted list. -/
theorem mergeCutCandidates_idempotent_witness :
    mergeCutCandidates (mergeCutCandidates idemWitnessList (3/10)) (3/10) =
      mergeCutCandidates idemWitnessList (3/10) :=
  mergeCutCandidates_idempotent idemWitnessList (3/10)
    (by norm_num [idemWitnessList, List.chain'_cons, List.chain'_singleton, candLE])

/-- C7: two consecutive sorted non-marker candidates fuse exactly when
`next.start − current.end ≤ mergeThreshold` (a gap equal to the threshold
merges, a larger gap does not), and the fused span has end `max` of ends,
duration recomputed as end − start, confidence `max` of confidences, and
the two reasons joined by `" + "`. -/
theorem mergeCutCandidates_pair (a b : CutCandidate) (θ : ℚ)
    (ha : a.isMarker = false) (hb : b.isMarker = false) (hs : candLE a b) :
    (b.start - a.stop ≤ θ →
      mergeCutCandidates [a, b] θ =
        [{ a with stop := max a.stop b.stop,
                  duration := max a.stop b.stop - a.start,
                  confidence := max a.confidence b.confidence,
                  reason := a.reason ++ " + " ++ b.reason }]) ∧
    (θ < b.start - a.stop → mergeCutCandidates [a, b] θ = [a, b]) := by
  constructor
  · intro h
    simp [mergeCutCandidates, mergeLoop, ha, h]
  · intro h
    simp [mergeCutCandidates, mergeLoop, ha, not_le.mpr h]

/-- C7 witness: a gap of exactly 0.3 merges (with the fused fields), a gap
of 0.4 does not. -/
theorem mergeCutCandidates_pair_witness :
    mergeCutCandidates [boundaryLeft, boundaryRight] (3/10) =
      [{ boundaryLeft with
          stop := max boundaryLeft.stop boundaryRight.stop,
          duration := max boundaryLeft.stop boundaryRight.stop - boundaryLeft.start,
          confidence := max boundaryLeft.confidence boundaryRight.confidence,
          reason := boundaryLeft.reason ++ " + " ++ boundaryRight.reason }] ∧
    mergeCutCandidates [boundaryLeft, boundaryFar] (3/10) = [boundaryLeft, boundaryFar] :=
  ⟨(mergeCutCandidates_pair boundaryLeft boundaryRight (3/10) rfl rfl
      (by norm_num [candLE, boundaryLeft, boundaryRight])).1
      (by norm_num [boundaryLeft, boundaryRight]),
   (mergeCutCandidates_pair boundaryLeft boundaryFar (3/10) rfl rfl
      (by norm_num [candLE, boundaryLeft, boundaryFar])).2
      (by norm_num [boundaryLeft, boundaryFar])⟩

/-- C2 (code defect): on the sorted two-candidate list of a non-marker
silence span `[0, 5]` followed by a marker at `[2, 2]`, the merge absorbs
the marker into the preceding non-marker accumulator: the output is a
single non-marker span and the marker is gone, although the source comments
that markers are kept unmerged. -/
theorem mergeCutCandidates_absorbs_marker :
    candLE cexSilence cexMarker ∧ cexMarker.isMarker = true ∧
    (mergeCutCandidates [cexSilence, cexMarker] (3/10)).map
        (fun c => (c.start, c.stop, c.isMarker)) = [(0, 5, false)] ∧
    cexMarker ∉ mergeCutCandidates [cexSilence, cexMarker] (3/10) := by
  refine ⟨by norm_num [candLE, cexSilence, cexMarker], rfl, ?_, ?_⟩
  · norm_num [mergeCutCandidates, mergeLoop, cexSilence, cexMarker]
  · norm_num [mergeCutCandidates, mergeLoop, cexSilence, cexMarker,
      CutCandidate.mk.injEq]

lemma keepLoop_dropLoop_sum (minClip total : ℚ) (A : List CutCandidate) :
    ∀ ct : ℚ, List.Pairwise (fun x y => x.stop ≤ y.start) A →
      (∀ a ∈ A, a.start ≤ a.stop ∧ a.stop ≤ total) →
      (∀ a ∈ A, ct ≤ a.start) → ct ≤ total →
      sumDurations (keepLoop minClip total ct A) +
        sumDurations (dropLoop minClip total ct A) + spanSum A = total - ct := by
  induction A with
  | nil =>
    intro ct _ _ _ hct
    simp only [keepLoop, dropLoop, spanSum, sumDurations, List.map_nil, List.sum_nil]
    split_ifs with h1 h2 <;> simp <;> linarith
  | cons a rest ih =>
    intro ct hpw hbounds hstart hct
    obtain ⟨hhead, htail⟩ := List.pairwise_cons.mp hpw
    have hab := hbounds a (List.mem_cons_self a rest)
    have hctA := hstart a (List.mem_cons_self a rest)
    have ihr := ih a.stop htail
      (fun b hb => hbounds b (List.mem_cons_of_mem a hb))
      (fun b hb => hhead b hb) hab.2
    simp only [keepLoop, dropLoop, sumDurations, spanSum, List.map_append,
      List.sum_append, List.map_cons, List.sum_cons] at ihr ⊢
    split_ifs with h1 h2
    · simp only [List.map_cons, List.sum_cons, List.map_nil, List.sum_nil]
      linarith
    · simp only [List.map_cons, List.sum_cons, List.map_nil, List.sum_nil]
      linarith
    · have : ct = a.start := le_antisymm hctA (not_lt.mp h1)
      simp only [List.map_nil, List.sum_nil]
      linarith

/-- C1 (amended): coverage accounting holds with span lengths `end − start`
in place of the `duration` fields of the non-marker cuts.  For an input
whose actual (non-marker) cuts are sorted and pairwise disjoint,
well-formed, and contained in `[0, totalDuration]`, the keep-clip durations
plus the non-marker cut spans plus the dropped complement fragments sum to
`totalDuration`. -/
theorem generateKeepClips_coverage (cfg : Config) (cutCandidates : List CutCandidate)
    (total : ℚ)
    (hpw : List.Pairwise (fun x y => x.stop ≤ y.start)
      (cutCandidates.filter (fun c => !c.isMarker)))
    (hbounds : ∀ a ∈ cutCandidates.filter (fun c => !c.isMarker),
      a.start ≤ a.stop ∧ a.stop ≤ total)
    (hstart : ∀ a ∈ cutCandidates.filter (fun c => !c.isMarker), (0 : ℚ) ≤ a.start)
    (htotal : (0 : ℚ) ≤ total) :
    sumDurations (generateKeepClips cfg cutCandidates total) +
      spanSum (cutCandidates.filter (fun c => !c.isMarker)) +
      sumDurations (droppedFragments cfg cutCandidates total) = total := by
  simp only [generateKeepClips, droppedFragments]
  by_cases he : (cutCandidates.filter (fun c => !c.isMarker)).isEmpty
  · rw [if_pos he, if_pos he]
    have hnil : cutCandidates.filter (fun c => !c.isMarker) = [] :=
      List.isEmpty_iff.mp he
    simp [hnil, sumDurations, spanSum]
  · rw [if_neg he, if_neg he]
    have hsum := keepLoop_dropLoop_sum cfg.autoCut.minClipDuration total
      (cutCandidates.filter (fun c => !c.isMarker)) 0 hpw hbounds hstart htotal
    linarith

/-- C1 witness: coverage accounting at the spec's Scenario A cuts
`[(10,15), (50,52)]` over a 100-second timeline. -/
theorem generateKeepClips_coverage_witness :
    sumDurations (generateKeepClips fillerScenarioCfg coverageWitnessCuts 100) +
      spanSum (coverageWitnessCuts.filter (fun c => !c.isMarker)) +
      sumDurations (droppedFragments fillerScenarioCfg coverageWitnessCuts 100) = 100 :=
  generateKeepClips_coverage fillerScenarioCfg coverageWitnessCuts 100
    (by norm_num [coverageWitnessCuts, List.pairwise_cons])
    (by norm_num [coverageWitnessCuts])
    (by norm_num [coverageWitnessCuts])
    (by norm_num)

/-- C1 (counterexample): at a concrete `detectCuts` input — one filler word
on `[2, 3]` with the default `cutBuffer = 0.1` — the sum of keep-clip
durations (44/5) plus the sum of the `duration` fields of the non-marker
cuts (1) plus the dropped-fragment total (0) is 49/5, not the total
duration 10, because a filler candidate's `duration` field excludes the
buffer its span carries. -/
theorem detectCuts_coverage_counterexample :
    sumDurations
        ((detectCuts fillerScenarioCfg fillerScenarioVideo fillerScenarioSpeech
          none).keepClips) = 44/5 ∧
    (((detectCuts fillerScenarioCfg fillerScenarioVideo fillerScenarioSpeech
          none).cutCandidates.filter (fun c => !c.isMarker)).map (·.duration)).sum = 1 ∧
    droppedFragments fillerScenarioCfg
        (detectCuts fillerScenarioCfg fillerScenarioVideo fillerScenarioSpeech
          none).cutCandidates 10 = [] ∧
    fillerScenarioVideo.duration = 10 ∧
    ((44 : ℚ)/5 + 1 + 0 ≠ 10) := by
  norm_num [detectCuts, detectCutsStages, generateCutCandidates, sortByStart,
    List.insertionSort, List.orderedInsert, candLE, isAdvancedDetectionEnabled,
    mergeCutCandidates, mergeLoop, filterCutCandidates, applyCutStyle,
    generateKeepClips, keepLoop, droppedFragments, dropLoop, sumDurations,
    fillerScenarioCfg, fillerScenarioVideo, fillerScenarioSpeech, max_def, min_def]

/-- C3 (code defect): with pause detection enabled, `detectCuts` produces
keep clips `[(0,5), (17/5,20)]` that overlap each other, and the second
keep clip overlaps the retained non-marker silence cut `[5, 10]` — the
unsorted concatenation of advanced candidates lets the cursor of
`generateKeepClips` move backwards. -/
theorem detectCuts_keepClip_overlap :
    (detectCuts pauseScenarioCfg pauseScenarioVideo pauseScenarioSpeech
        none).keepClips.map (fun k => (k.start, k.stop)) = [(0, 5), (17/5, 20)] ∧
    (detectCuts pauseScenarioCfg pauseScenarioVideo pauseScenarioSpeech
        none).cutCandidates.map (fun c => (c.start, c.stop, c.isMarker)) =
      [(5, 10, false), (12, 12, true), (2, 17/5, false)] ∧
    ((17 : ℚ)/5 < 5) ∧
    (max ((17 : ℚ)/5) 5 < min (20 : ℚ) 10) := by
  norm_num [detectCuts, detectCutsStages, generateCutCandidates, sortByStart,
    List.insertionSort, List.orderedInsert, candLE, analyzeAll, analyzeSpeechRate,
    detectPauses, analyzeSentiment, speechRateConfig, pauseConfig, sentimentConfig,
    isAdvancedDetectionEnabled, calculatePauseConfidence, calculateSilenceConfidence,
    mergeCutCandidates, mergeLoop, filterCutCandidates, applyCutStyle,
    generateKeepClips, keepLoop, pauseScenarioCfg, pauseScenarioVideo,
    pauseScenarioSpeech, List.filterMap_cons, List.filterMap_nil, max_def, min_def]

/-- C6 (code defect): with pause detection enabled, the concatenated list
`[...rawCandidates, ...advancedCandidates]` handed to `mergeCutCandidates`
has starts `[5, 12, 2]` and is not sorted by start. -/
theorem detectCuts_merge_input_unsorted :
    (detectCutsStages pauseScenarioCfg pauseScenarioVideo pauseScenarioSpeech
        none).allCandidates.map (·.start) = [5, 12, 2] ∧
    ¬ List.Chain' candLE
      (detectCutsStages pauseScenarioCfg pauseScenarioVideo pauseScenarioSpeech
        none).allCandidates := by
  norm_num [detectCutsStages, generateCutCandidates, sortByStart, List.insertionSort,
    List.orderedInsert, candLE, analyzeAll, analyzeSpeechRate, detectPauses,
    analyzeSentiment, speechRateConfig, pauseConfig, sentimentConfig,
    isAdvancedDetectionEnabled, calculatePauseConfidence, pauseScenarioCfg,
    pauseScenarioVideo, pauseScenarioSpeech, calculateSilenceConfidence,
    List.chain'_cons, List.chain'_singleton, List.filterMap_cons, List.filterMap_nil,
    max_def, min_def]

lemma framesToTimecode_eq (frames : ℤ) (fr : ℚ) (hrs mins secs rem : ℤ)
    (h1 : ⌊(frames : ℚ) / (fr * 3600)⌋ = hrs)
    (h2 : ⌊jsMod (frames : ℚ) (fr * 3600) / (fr * 60)⌋ = mins)
    (h3 : ⌊jsMod (frames : ℚ) (fr * 60) / fr⌋ = secs)
    (h4 : ⌊jsMod (frames : ℚ) fr⌋ = rem) :
    framesToTimecode frames fr =
      padStart (toString hrs) 2 '0' ++ ":" ++ padStart (toString mins) 2 '0' ++ ":" ++
        padStart (toString secs) 2 '0' ++ ":" ++ padStart (toString rem) 2 '0' := by
  rw [framesToTimecode, h1, h2, h3, h4]

set_option maxRecDepth 4000 in
/-- C4 (code defect): for keep clips of durations 1 s and 2 s at 30 fps, the
generated EDL's second row has record-in `00:00:02:00`
(`floor(1 × 2 × 30) = 60` frames, the row index times the row's own
duration) while the accumulated duration of the preceding clips is 1 s,
whose frame-floored timecode is `00:00:01:00`. -/
theorem generateEDL_record_not_accumulated :
    generateEDL 30 edlScenarioClips "SOURCE" =
      "TITLE: Auto Edited Sequence\nFCM: NON-DROP FRAME\n\n001  SOURCE       V     C        00:00:00:00 00:00:01:00 00:00:00:00 00:00:01:00\n002  SOURCE       V     C        00:00:05:00 00:00:07:00 00:00:02:00 00:00:04:00\n" ∧
    (edlEntries 30 edlScenarioClips).map (·.recordIn) = ["00:00:00:00", "00:00:02:00"] ∧
    framesToTimecode ⌊(1 : ℚ) * 30⌋ 30 = "00:00:01:00" ∧
    ("00:00:02:00" : String) ≠ "00:00:01:00" := by
  have t0 : framesToTimecode 0 30 = "00:00:00:00" := by
    rw [framesToTimecode_eq 0 30 0 0 0 0 (by norm_num) (by norm_num [jsMod, ratTrunc])
      (by norm_num [jsMod, ratTrunc]) (by norm_num [jsMod, ratTrunc])]
    decide
  have t30 : framesToTimecode 30 30 = "00:00:01:00" := by
    rw [framesToTimecode_eq 30 30 0 0 1 0 (by norm_num) (by norm_num [jsMod, ratTrunc])
      (by norm_num [jsMod, ratTrunc]) (by norm_num [jsMod, ratTrunc])]
    decide
  have t60 : framesToTimecode 60 30 = "00:00:02:00" := by
    rw [framesToTimecode_eq 60 30 0 0 2 0 (by norm_num) (by norm_num [jsMod, ratTrunc])
      (by norm_num [jsMod, ratTrunc]) (by norm_num [jsMod, ratTrunc])]
    decide
  have t120 : framesToTimecode 120 30 = "00:00:04:00" := by
    rw [framesToTimecode_eq 120 30 0 0 4 0 (by norm_num) (by norm_num [jsMod, ratTrunc])
      (by norm_num [jsMod, ratTrunc]) (by norm_num [jsMod, ratTrunc])]
    decide
  have t150 : framesToTimecode 150 30 = "00:00:05:00" := by
    rw [framesToTimecode_eq 150 30 0 0 5 0 (by norm_num) (by norm_num [jsMod, ratTrunc])
      (by norm_num [jsMod, ratTrunc]) (by norm_num [jsMod, ratTrunc])]
    decide
  have t210 : framesToTimecode 210 30 = "00:00:07:00" := by
    rw [framesToTimecode_eq 210 30 0 0 7 0 (by norm_num) (by norm_num [jsMod, ratTrunc])
      (by norm_num [jsMod, ratTrunc]) (by norm_num [jsMod, ratTrunc])]
    decide
  have e : edlEntries 30 edlScenarioClips =
      [{ editNumber := "001", sourceIn := "00:00:00:00", sourceOut := "00:00:01:00",
         recordIn := "00:00:00:00", recordOut := "00:00:01:00" },
       { editNumber := "002", sourceIn := "00:00:05:00", sourceOut := "00:00:07:00",
         recordIn := "00:00:02:00", recordOut := "00:00:04:00" }] := by
    simp only [edlEntries, edlScenarioClips, List.enum, List.enumFrom, List.map]
    norm_num
    rw [t0, t30, t60, t120, t150, t210]
    refine ⟨⟨?_, ?_⟩, ?_, ?_⟩ <;> decide
  refine ⟨?_, ?_, ?_, by decide⟩
  · rw [generateEDL, e]
    decide
  · rw [e]
    decide
  · rw [show ⌊(1 : ℚ) * 30⌋ = (30 : ℤ) by norm_num]
    exact t30

/-- C8 (counterexample): with a scene-change correlation factor of 2,
`applyCutStyle` raises the confidence of a scene-change candidate from 0.6
to 6/5, outside `[0, 1]` — nothing bounds the product; and with a factor of
0 (present but falsy) the candidate is returned unchanged instead of being
multiplied by 0. -/
theorem applyCutStyle_unbounded_counterexample :
    (applyCutStyle [styledScene] (some overCorrelatedStyle)).map (·.confidence) =
      [6/5] ∧
    ¬ ((6 : ℚ)/5 ≤ 1) ∧
    applyCutStyle [styledScene] (some zeroCorrelatedStyle) = [styledScene] ∧
    styledScene.confidence * 0 ≠ styledScene.confidence := by
  refine ⟨?_, by norm_num, ?_, ?_⟩
  · norm_num [applyCutStyle, styledScene, overCorrelatedStyle]
  · norm_num [applyCutStyle, styledScene, zeroCorrelatedStyle]
  · norm_num [styledScene]

/-- C8 (amended): when the learned style carries a nonzero
`sceneChangeCorrelation` factor, `applyCutStyle` multiplies the confidence
of each scene-change-typed candidate by that factor — without any bounding
to `[0, 1]` — and returns every other candidate, and every other field,
unchanged; a factor of 0 is treated as absent. -/
theorem applyCutStyle_scales_sceneChange (cutCandidates : List CutCandidate)
    (style : LearnedStyle) (p : CutPattern) (f : ℚ) (hp : style.cutPattern = some p)
    (hf : p.sceneChangeCorrelation = some f) (h0 : f ≠ 0) :
    applyCutStyle cutCandidates (some style) =
      cutCandidates.map fun c =>
        if c.type = .sceneChange then { c with confidence := c.confidence * f }
        else c := by
  simp only [applyCutStyle, hp, hf]
  refine List.map_congr_left fun c _ => ?_
  by_cases hc : c.type = .sceneChange
  · rw [if_pos ⟨h0, hc⟩, if_pos hc]
  · rw [if_neg (by tauto), if_neg hc]

/-- C8 witness: the scaling equation at a concrete two-candidate list and
factor 2. -/
theorem applyCutStyle_scales_sceneChange_witness :
    applyCutStyle [styledScene, styledSilence] (some overCorrelatedStyle) =
      [styledScene, styledSilence].map fun c =>
        if c.type = .sceneChange then { c with confidence := c.confidence * 2 }
        else c :=
  applyCutStyle_scales_sceneChange [styledScene, styledSilence] overCorrelatedStyle
    _ 2 rfl rfl (by norm_num)

lemma sextet_roundtrip_fin : ∀ s : Fin 64,
    base64CharSextet (base64SextetChar s.val) = s.val := by
  decide

lemma sextetChar_ne_pad_fin : ∀ s : Fin 64, base64SextetChar s.val ≠ '=' := by decide

lemma sextet_roundtrip {s : ℕ} (h : s < 64) :
    base64CharSextet (base64SextetChar s) = s := sextet_roundtrip_fin ⟨s, h⟩

lemma sextetChar_ne_pad {s : ℕ} (h : s < 64) :
    base64SextetChar s ≠ '=' := sextetChar_ne_pad_fin ⟨s, h⟩

lemma base64Decode_full (c1 c2 c3 c4 : Char) (rest : List Char)
    (h3 : c3 ≠ '=') (h4 : c4 ≠ '=') :
    base64Decode (c1 :: c2 :: c3 :: c4 :: rest) =
      (base64CharSextet c1 * 4 + base64CharSextet c2 / 16) ::
        (base64CharSextet c2 % 16 * 16 + base64CharSextet c3 / 4) ::
        (base64CharSextet c3 % 4 * 64 + base64CharSextet c4) ::
        base64Decode rest := by
  simp only [base64Decode]
  rw [if_neg h3, if_neg h4]

lemma base64Decode_pad1 (c1 c2 c3 : Char) (rest : List Char) (h3 : c3 ≠ '=') :
    base64Decode (c1 :: c2 :: c3 :: '=' :: rest) =
      [base64CharSextet c1 * 4 + base64CharSextet c2 / 16,
       base64CharSextet c2 % 16 * 16 + base64CharSextet c3 / 4] := by
  simp only [base64Decode]
  rw [if_neg h3]
  simp only [if_true]

lemma base64Decode_pad2 (c1 c2 : Char) (rest : List Char) :
    base64Decode (c1 :: c2 :: '=' :: '=' :: rest) =
      [base64CharSextet c1 * 4 + base64CharSextet c2 / 16] := by
  simp only [base64Decode, if_true]

theorem base64_decode_encode : ∀ l : List ℕ, (∀ b ∈ l, b < 256) →
    base64Decode (base64Encode l) = l
  | [], _ => rfl
  | [b1], h => by
    have hb1 : b1 < 256 := h b1 (by simp)
    simp only [base64Encode]
    rw [base64Decode_pad2]
    rw [sextet_roundtrip (by omega), sextet_roundtrip (by omega)]
    simp only [List.cons.injEq, and_true]
    omega
  | [b1, b2], h => by
    have hb1 : b1 < 256 := h b1 (by simp)
    have hb2 : b2 < 256 := h b2 (by simp)
    simp only [base64Encode]
    rw [base64Decode_pad1 _ _ _ _ (sextetChar_ne_pad (by omega))]
    rw [sextet_roundtrip (by omega), sextet_roundtrip (by omega),
      sextet_roundtrip (by omega)]
    simp only [List.cons.injEq, and_true]
    constructor <;> omega
  | b1 :: b2 :: b3 :: rest, h => by
    have hb1 : b1 < 256 := h b1 (by simp)
    have hb2 : b2 < 256 := h b2 (by simp)
    have hb3 : b3 < 256 := h b3 (by simp)
    have ih := base64_decode_encode rest (fun b hb => h b (by simp [hb]))
    simp only [base64Encode]
    rw [base64Decode_full _ _ _ _ _ (sextetChar_ne_pad (by omega))
      (sextetChar_ne_pad (by omega))]
    rw [sextet_roundtrip (by omega), sextet_roundtrip (by omega),
      sextet_roundtrip (by omega), sextet_roundtrip (by omega), ih]
    simp only [List.cons.injEq]
    exact ⟨by omega, by omega, by omega, trivial⟩
termination_by l => l.length

lemma base64CharSextet_lt (c : Char) : base64CharSextet c < 64 := by
  simp only [base64CharSextet]
  split_ifs <;> omega

theorem base64Decode_lt : ∀ s : List Char, ∀ b ∈ base64Decode s, b < 256
  | c1 :: c2 :: c3 :: c4 :: rest, b, hb => by
    have h1 := base64CharSextet_lt c1
    have h2 := base64CharSextet_lt c2
    have h3 := base64CharSextet_lt c3
    have h4 := base64CharSextet_lt c4
    have ih := base64Decode_lt rest
    simp only [base64Decode] at hb
    split_ifs at hb with e1 e2
    · simp at hb
      omega
    · simp at hb
      rcases hb with hb | hb <;> omega
    · simp at hb
      rcases hb with hb | hb | hb | hb
      · omega
      · omega
      · omega
      · exact ih b hb
  | [], b, hb => by simp [base64Decode] at hb
  | [c1], b, hb => by simp [base64Decode] at hb
  | [c1, c2], b, hb => by simp [base64Decode] at hb
  | [c1, c2, c3], b, hb => by simp [base64Decode] at hb
termination_by s => s.length

set_option maxRecDepth 20000 in
lemma headerBytes_length : headerBytes.length = 240 := by decide

set_option maxRecDepth 20000 in
lemma footerBytes_length : footerBytes.length = 126 := by decide

lemma textSection_of_le {t : List ℕ} (hl : t.length ≤ 302) :
    textSection t = t ++ List.replicate (302 - t.length) 0 := by
  simp only [textSection, TEXT_SECTION_SIZE, List.take_of_length_le hl]

lemma textSection_of_gt {t : List ℕ} (hl : 302 < t.length) :
    textSection t = t.take 302 := by
  simp only [textSection, TEXT_SECTION_SIZE]
  rw [show 302 - t.length = 0 from by omega, List.replicate_zero, List.append_nil]

lemma textSection_length (t : List ℕ) : (textSection t).length = 302 := by
  simp only [textSection, TEXT_SECTION_SIZE, List.length_append, List.length_take,
    List.length_replicate]
  omega

lemma captionBuffer_bytes_lt {t : List ℕ} (hb : ∀ b ∈ t, b < 256) :
    ∀ b ∈ captionBuffer t, b < 256 := by
  intro b hm
  simp only [captionBuffer, textSection, List.append_assoc, List.mem_append] at hm
  rcases hm with hm | hm | hm | hm
  · exact base64Decode_lt _ b hm
  · exact hb b (List.take_subset _ _ hm)
  · have := List.eq_of_mem_replicate hm
    omega
  · exact base64Decode_lt _ b hm

lemma captionBuffer_length (t : List ℕ) : (captionBuffer t).length = 668 := by
  simp only [captionBuffer, List.length_append, headerBytes_length,
    footerBytes_length, textSection_length]

lemma generateCaptionBase64_decodes (t : List ℕ) (hb : ∀ b ∈ t, b < 256) :
    base64Decode (generateCaptionBase64 t).data = captionBuffer t :=
  base64_decode_encode _ (captionBuffer_bytes_lt hb)

/-- C5: for caption text whose UTF-8 encoding is at most 302 bytes, the
returned base64 string decodes to exactly 668 bytes: the constant 240-byte
header, the 302-byte text section holding the text left-aligned and
zero-padded, and the constant 126-byte footer. -/
theorem generateCaptionBase64_layout (t : List ℕ) (hb : ∀ b ∈ t, b < 256)
    (hl : t.length ≤ 302) :
    base64Decode (generateCaptionBase64 t).data =
      headerBytes ++ (t ++ List.replicate (302 - t.length) 0) ++ footerBytes ∧
    (base64Decode (generateCaptionBase64 t).data).length = 668 ∧
    headerBytes.length = 240 ∧ footerBytes.length = 126 := by
  have hdec := generateCaptionBase64_decodes t hb
  refine ⟨?_, ?_, headerBytes_length, footerBytes_length⟩
  · rw [hdec]
    simp only [captionBuffer, textSection_of_le hl]
  · rw [hdec]
    exact captionBuffer_length t

/-- C5 witness: the layout at a 10-byte caption text. -/
theorem generateCaptionBase64_layout_witness :
    base64Decode (generateCaptionBase64 captionWitnessText).data =
      headerBytes ++ (captionWitnessText ++ List.replicate 292 0) ++ footerBytes := by
  have h := (generateCaptionBase64_layout captionWitnessText (by decide) (by decide)).1
  have e : (302 : ℕ) - captionWitnessText.length = 292 := by decide
  rw [e] at h
  exact h

/-- C10: for caption text whose UTF-8 encoding exceeds 302 bytes,
`generateCaptionBase64` (whose `Buffer.copy` stops at the end of the
302-byte target, without error) returns a base64 string decoding to exactly
668 bytes whose text section holds exactly the first 302 bytes of the text,
with the header and footer intact. -/
theorem generateCaptionBase64_truncates (t : List ℕ) (hb : ∀ b ∈ t, b < 256)
    (hl : 302 < t.length) :
    base64Decode (generateCaptionBase64 t).data =
      headerBytes ++ t.take 302 ++ footerBytes ∧
    (base64Decode (generateCaptionBase64 t).data).length = 668 := by
  have hdec := generateCaptionBase64_decodes t hb
  refine ⟨?_, ?_⟩
  · rw [hdec]
    simp only [captionBuffer, textSection_of_gt hl]
  · rw [hdec]
    exact captionBuffer_length t

/-- C10 witness: truncation at a 303-byte caption text. -/
theorem generateCaptionBase64_truncates_witness :
    base64Decode (generateCaptionBase64 oversizeWitnessText).data =
      headerBytes ++ List.replicate 302 65 ++ footerBytes := by
  have h := (generateCaptionBase64_truncates oversizeWitnessText
    (fun b hb => by
      have hmem : b ∈ List.replicate 303 65 := hb
      have := List.eq_of_mem_replicate hmem
      omega)
    (by simp only [oversizeWitnessText, List.length_replicate]; omega)).1
  have e : oversizeWitnessText.take 302 = List.replicate 302 65 := by
    show (List.replicate 303 65).take 302 = List.replicate 302 65
    rw [List.take_replicate, show (302 ⊓ 303 : ℕ) = 302 from by omega]
  rw [e] at h
  exact h

end AutoEdit
